import Mathlib

/-!
Shallow embedding of `src/gadgetsdk/_gadgetinspectionsession.py`
(class `GadgetInspectionSession`) from the OctoEverywhere Gadget Python SDK.

HTTP transport outcomes and host-callback behaviours are inputs to the model;
every observable side effect (HTTP request, state-update callback invocation,
error-event dispatch, local log line, sleep) is recorded in an action trace.
Python exceptions inside the SDK are modelled by flattening each `raise` site
to the `except` handler that catches it, with the object state mutated so far
carried along (matching Python's in-place mutation semantics).
-/

namespace GadgetSdk

/-- Opaque image bytes returned by the image-supplier callback. -/
abbrev ImageBytes := String

/-- Outcome of invoking a host-supplied callback: a normal return or a raised
exception carrying its message (`str(e)` in the source). -/
inductive CbResult (α : Type) where
  | ret (a : α)
  | raise (msg : String)
deriving DecidableEq

/-- The optional well-known error fields of an API response body
(`ErrorType`, `ErrorDetails`), as read by `_tryParseApiErrorResponse`. -/
structure ApiErrorFields where
  errorType : Option String
  errorDetails : Option String
deriving Repr, DecidableEq

/-- Body of a `createcontext` response, fields as read with
`responseJson.get(..., None)` in `_ensureSessionContext`. -/
structure ContextBody where
  contextId : Option String
  processRequestUrl : Option String
  fallbackProcessRequestUrl : Option String
  err : ApiErrorFields
deriving Repr, DecidableEq

/-- Body of a process (image submission) response, fields as read with
`responseJson.get(..., None)` in `_processImage`, in source order. -/
structure ProcessBody where
  nextProcessIntervalSec : Option Int
  printQuality : Option Int
  warningSuggested : Option Bool
  pauseSuggested : Option Bool
  score : Option Int
  err : ApiErrorFields
deriving Repr, DecidableEq

/-- Outcome of one `requests.post` call: either the call itself raised
(transport failure), or a response arrived with a status code, a body that
may or may not parse as JSON (`none` models `response.json()` raising), and
the raw response text. -/
inductive HttpResult (β : Type) where
  | exn (msg : String)
  | resp (status : Nat) (body : Option β) (text : String)
deriving DecidableEq

/-- The mutable session object state (`self.*` fields of
`GadgetInspectionSession` that the polling logic reads and writes). The
worker thread handle is abstracted to the boolean `hasThread`. -/
structure SessionState where
  contextId : Option String
  processRequestUrl : Option String
  processRequestFallbackUrl : Option String
  useFallbackUrl : Bool
  sleepIntervalSec : Int
  hasRan : Bool
  isRunning : Bool
  isPaused : Bool
  hasThread : Bool
deriving Repr, DecidableEq

/-- Observable actions of the SDK, in the order they occur.
`fireStateUpdate a1 a2 a3 a4` records an invocation of the host's
`on_state_update` callback with positional arguments `(a1, a2, a3, a4)`
exactly as passed at the call site. `reportError` records an error event
reaching `_fireOnError`; `log` records its local `print` on a handler
failure. -/
inductive Action where
  | contextRequest
  | submitRequest (url : Option String)
  | fireStateUpdate (a1 : Int) (a2 : Bool) (a3 : Bool) (a4 : Int)
  | reportError (errorType : String) (errorDetails : String)
  | log (msg : String)
  | sleep (sec : Int)
deriving Repr, DecidableEq

/-- A session state together with the trace of actions performed so far. -/
structure Eff where
  state : SessionState
  trace : List Action
deriving Repr, DecidableEq

/-- Append one action to the trace. -/
def emit (a : Action) (e : Eff) : Eff :=
  { e with trace := e.trace ++ [a] }

/-- The host's optional `on_error` handler: `none` when not supplied. -/
abbrev ErrorHandler := Option (String → String → CbResult Unit)

/-- The host's `on_state_update` callback behaviour: given the four
positional arguments, it returns or raises. -/
abbrev StateUpdateCb := Int → Bool → Bool → Int → CbResult Unit

/-- `GadgetInspectionSession.ErrorTypeInternal` (`"OE_SDK_ERROR"`). -/
def ErrorTypeInternal : String := "OE_SDK_ERROR"

/-- `GadgetInspectionSession.ErrorTypeCallbackFailure`
(`"OE_SDK_CALLBACK_EXCEPTION"`). -/
def ErrorTypeCallbackFailure : String := "OE_SDK_CALLBACK_EXCEPTION"

/-- Stand-in for the message of the exception raised by `response.json()`
on an unparseable body (the exact text is library-produced). -/
def jsonDecodeFailureMsg : String := "Expecting value: line 1 column 1 (char 0)"

/-- `_fireOnError`: record the error event; if a handler is present invoke
it, and if the handler raises, catch the exception and log locally. -/
def fireOnError (onError : ErrorHandler) (errorType errorDetails : String) (e : Eff) : Eff :=
  let e1 := emit (.reportError errorType errorDetails) e
  match onError with
  | none => e1
  | some h =>
    match h errorType errorDetails with
    | .ret _ => e1
    | .raise m => emit (.log ("Error in error handler: " ++ m)) e1

/-- `_tryParseApiErrorResponse`: try to read the well-known
`(ErrorType, ErrorDetails)` pair from a response body; a JSON parse failure
is swallowed and yields `none`, as does either field being absent. -/
def tryParseApiErrorResponse (body : Option ApiErrorFields) : Option (String × String) :=
  match body with
  | none => none
  | some f =>
    match f.errorType, f.errorDetails with
    | some t, some d => some (t, d)
    | _, _ => none

/-- `_sanityCheckAndSetProcessingInterval`: clamp the new value to the
system floor 20 and ceiling `60 * 30`, then raise it to the caller-supplied
`minProcessingIntervalSec` if that is larger. -/
def sanityCheckAndSetProcessingInterval (minProcessingIntervalSec : Int)
    (newValueSec : Int) (s : SessionState) : SessionState :=
  let v1 := max 20 newValueSec
  let v2 := min (60 * 30) v1
  let v3 := max minProcessingIntervalSec v2
  { s with sleepIntervalSec := v3 }

/-- `_ensureSessionContext`: no-op success when a context id already exists;
otherwise issue the `createcontext` request and interpret the outcome.
Returns the boolean result together with the updated effects. Field
assignments happen before validation, matching the source, so a partially
valid body still mutates the session. Every `raise` in the source lands in
the function's own `except` clause, which reports an internal error and
returns `false`. -/
def ensureSessionContext (onError : ErrorHandler)
    (http : HttpResult ContextBody) (e : Eff) : Bool × Eff :=
  if e.state.contextId.isSome then (true, e)
  else
    let e := emit .contextRequest e
    match http with
    | .exn msg => (false, fireOnError onError ErrorTypeInternal msg e)
    | .resp status body text =>
      if status ≠ 200 then
        match tryParseApiErrorResponse (body.map (·.err)) with
        | some (t, d) => (false, fireOnError onError t d e)
        | none =>
          (false, fireOnError onError ErrorTypeInternal
            ("Failed to create a new session context. Status: " ++ toString status ++ ", Body: " ++ text) e)
      else
        match body with
        | none => (false, fireOnError onError ErrorTypeInternal jsonDecodeFailureMsg e)
        | some b =>
          let e := { e with state := { e.state with
            contextId := b.contextId,
            processRequestUrl := b.processRequestUrl,
            processRequestFallbackUrl := b.fallbackProcessRequestUrl } }
          if b.contextId.isNone then
            (false, fireOnError onError ErrorTypeInternal
              "Failed to get a valid context ID from the response." e)
          else if b.processRequestUrl.isNone then
            (false, fireOnError onError ErrorTypeInternal
              "Failed to get a valid ProcessRequestUrl from the response." e)
          else if b.fallbackProcessRequestUrl.isNone then
            (false, fireOnError onError ErrorTypeInternal
              "Failed to get a valid FallbackProcessRequestUrl from the response." e)
          else
            (true, e)

/-- The `except` clause of `_processImage`: switch to the fallback URL and
report an internal error with the exception's message. -/
def processImageFail (onError : ErrorHandler) (msg : String) (e : Eff) : Eff :=
  fireOnError onError ErrorTypeInternal msg
    { e with state := { e.state with useFallbackUrl := true } }

/-- `_processImage`: submit the image to the active URL (primary unless the
fallback flag is set), interpret the response, update the interval, and fire
the state-update callback with positional arguments
`(printQuality, warningSuggested, pauseSuggested, score)` as at the source
call site. Each `raise` site is flattened to the handler that catches it. -/
def processImage (minProcessingIntervalSec : Int) (onError : ErrorHandler)
    (onStateUpdate : StateUpdateCb) (http : HttpResult ProcessBody) (e : Eff) : Eff :=
  let requestUrl :=
    if !e.state.useFallbackUrl then e.state.processRequestUrl
    else e.state.processRequestFallbackUrl
  let e := emit (.submitRequest requestUrl) e
  match http with
  | .exn msg => processImageFail onError msg e
  | .resp status body text =>
    if status ≠ 200 then
      match tryParseApiErrorResponse (body.map (·.err)) with
      | some (t, d) =>
        fireOnError onError t d
          { e with state := { e.state with useFallbackUrl := true } }
      | none =>
        processImageFail onError
          ("Failed to call Process API. Status: " ++ toString status ++ ", Body: " ++ text) e
    else
      match body with
      | none => processImageFail onError jsonDecodeFailureMsg e
      | some b =>
        match b.nextProcessIntervalSec with
        | none =>
          processImageFail onError
            "Failed to get a valid NextProcessIntervalSec from process API response." e
        | some v =>
          let e := { e with state :=
            sanityCheckAndSetProcessingInterval minProcessingIntervalSec v e.state }
          match b.score with
          | none =>
            processImageFail onError
              "Failed to get a valid Score from process API response." e
          | some score =>
            match b.printQuality with
            | none =>
              processImageFail onError
                "Failed to get a valid PrintQuality from process API response." e
            | some printQuality =>
              match b.warningSuggested with
              | none =>
                processImageFail onError
                  "Failed to get a valid WarningSuggested from process API response." e
              | some warningSuggested =>
                match b.pauseSuggested with
                | none =>
                  processImageFail onError
                    "Failed to get a valid PauseSuggested from process API response." e
                | some pauseSuggested =>
                  let e := emit (.fireStateUpdate printQuality warningSuggested pauseSuggested score) e
                  match onStateUpdate printQuality warningSuggested pauseSuggested score with
                  | .ret _ => e
                  | .raise m => fireOnError onError ErrorTypeCallbackFailure m e

/-- All inputs consumed by one polling iteration: the transport outcomes of
the two possible HTTP calls and the behaviours of the three host
callbacks. -/
structure TickInput where
  contextHttp : HttpResult ContextBody
  imageSupplier : CbResult (Option ImageBytes)
  submitHttp : HttpResult ProcessBody
  stateUpdate : StateUpdateCb
  onError : ErrorHandler

/-- One iteration of `_threadWorker`'s loop body: if paused, just sleep;
otherwise ensure a context (on failure sleep 30s and go to the next
iteration), fetch an image (a supplier exception is reported as a callback
failure and leaves no image), process it if present, then sleep the
governed interval. -/
def tick (minProcessingIntervalSec : Int) (inp : TickInput) (s : SessionState) : Eff :=
  if s.isPaused then emit (.sleep s.sleepIntervalSec) ⟨s, []⟩
  else
    match ensureSessionContext inp.onError inp.contextHttp ⟨s, []⟩ with
    | (false, e) => emit (.sleep 30) e
    | (true, e) =>
      let e2 :=
        match inp.imageSupplier with
        | .ret none => e
        | .ret (some _) =>
          processImage minProcessingIntervalSec inp.onError inp.stateUpdate inp.submitHttp e
        | .raise m => fireOnError inp.onError ErrorTypeCallbackFailure m e
      emit (.sleep e2.state.sleepIntervalSec) e2

/-- Message of the exception `start` raises on reuse. -/
def alreadyStartedMsg : String :=
  "The Gadget session has already been started, each session can only be used once."

/-- `start`: raise if the session has ever been started, otherwise mark it
running and launch the worker thread. The returned state is the session
after the call (unchanged when the call raises, since the check precedes
every mutation). -/
def start (s : SessionState) : Except String Unit × SessionState :=
  if s.hasRan then (.error alreadyStartedMsg, s)
  else (.ok (), { s with hasRan := true, isRunning := true, hasThread := true })

/-- `pause`: set the cooperative paused flag. -/
def pause (s : SessionState) : SessionState := { s with isPaused := true }

/-- `resume`: clear the cooperative paused flag. -/
def resume (s : SessionState) : SessionState := { s with isPaused := false }

/-- `stop`: if a worker thread exists, clear the running flag and join it. -/
def stop (s : SessionState) : SessionState :=
  if s.hasThread then { s with isRunning := false, hasThread := false } else s

/-- Whether a process-response transport outcome is a fully well-formed
success: status 200, parseable body, and all five verdict fields present. -/
def submissionOk : HttpResult ProcessBody → Bool
  | .exn _ => false
  | .resp status body _ =>
    status == 200 &&
    match body with
    | none => false
    | some b =>
      b.nextProcessIntervalSec.isSome && b.score.isSome && b.printQuality.isSome &&
      b.warningSuggested.isSome && b.pauseSuggested.isSome

/-- Whether a context-response transport outcome satisfies the code's
success condition: status 200, parseable body, all three fields non-null. -/
def contextRespOk : HttpResult ContextBody → Bool
  | .exn _ => false
  | .resp status body _ =>
    status == 200 &&
    match body with
    | none => false
    | some b =>
      b.contextId.isSome && b.processRequestUrl.isSome && b.fallbackProcessRequestUrl.isSome

/-- Recognizer for submission-request actions. -/
def isSubmit : Action → Bool
  | .submitRequest _ => true
  | _ => false

/-- Recognizer for error-event actions. -/
def isReport : Action → Bool
  | .reportError _ _ => true
  | _ => false

/-- Recognizer for state-update callback invocations. -/
def isStateUpdate : Action → Bool
  | .fireStateUpdate _ _ _ _ => true
  | _ => false


/-! ### Helper lemmas -/

/-- The actions the error reporter performs after recording the event
itself: nothing, or one local log line when the supplied handler raises. -/
def handlerExtra (onError : ErrorHandler) (errorType errorDetails : String) : List Action :=
  match onError with
  | none => []
  | some h =>
    match h errorType errorDetails with
    | .ret _ => []
    | .raise m => [.log ("Error in error handler: " ++ m)]

theorem fireOnError_state (onError : ErrorHandler) (t d : String) (e : Eff) :
    (fireOnError onError t d e).state = e.state := by
  unfold fireOnError emit
  cases onError with
  | none => rfl
  | some h => cases hr : h t d <;> simp [hr]

theorem fireOnError_trace_eq (onError : ErrorHandler) (t d : String) (e : Eff) :
    (fireOnError onError t d e).trace
      = e.trace ++ Action.reportError t d :: handlerExtra onError t d := by
  unfold fireOnError emit handlerExtra
  cases onError with
  | none => simp
  | some h => cases hr : h t d <;> simp [hr]

theorem handlerExtra_no_report (onError : ErrorHandler) (t d : String) :
    (handlerExtra onError t d).countP isReport = 0 := by
  unfold handlerExtra
  cases onError with
  | none => rfl
  | some h => cases hr : h t d <;> simp [hr, List.countP_cons, isReport]

theorem handlerExtra_no_submit (onError : ErrorHandler) (t d : String) :
    (handlerExtra onError t d).countP isSubmit = 0 := by
  unfold handlerExtra
  cases onError with
  | none => rfl
  | some h => cases hr : h t d <;> simp [hr, List.countP_cons, isSubmit]

theorem handlerExtra_no_stateUpdate (onError : ErrorHandler) (t d : String) :
    (handlerExtra onError t d).countP isStateUpdate = 0 := by
  unfold handlerExtra
  cases onError with
  | none => rfl
  | some h => cases hr : h t d <;> simp [hr, List.countP_cons, isStateUpdate]

theorem processImageFail_state (onError : ErrorHandler) (m : String) (e : Eff) :
    (processImageFail onError m e).state = { e.state with useFallbackUrl := true } :=
  fireOnError_state onError ErrorTypeInternal m _

theorem processImageFail_trace_eq (onError : ErrorHandler) (m : String) (e : Eff) :
    (processImageFail onError m e).trace
      = e.trace ++ Action.reportError ErrorTypeInternal m :: handlerExtra onError ErrorTypeInternal m :=
  fireOnError_trace_eq onError ErrorTypeInternal m _

/-! ### Concrete fixtures used by counterexamples and witnesses -/

/-- A state-update callback that returns normally. -/
def goodStateUpdateCb : StateUpdateCb := fun _ _ _ _ => .ret ()

/-- A session that has not yet provisioned a context. -/
def sUnprovisioned : SessionState :=
  ⟨none, none, none, false, 60, true, true, false, true⟩

/-- A session holding the context of the spec's end-to-end scenario. -/
def sProvisioned : SessionState :=
  ⟨some "c1", some "https://a/p", some "https://a/f", false, 60, true, true, false, true⟩

/-- A 200 `createcontext` body whose three fields are all empty strings. -/
def ctxBodyEmptyStrings : ContextBody := ⟨some "", some "", some "", ⟨none, none⟩⟩

/-- A 200 process body carrying every verdict field:
`NextProcessIntervalSec:45, PrintQuality:7, WarningSuggested:false,
PauseSuggested:false, Score:12`. -/
def bodyFullVerdict : ProcessBody := ⟨some 45, some 7, some false, some false, some 12, ⟨none, none⟩⟩

/-- The spec scenario's first submission body: `NextProcessIntervalSec:45,
Score:12, WarningSuggested:false, PauseSuggested:false`, no `PrintQuality`. -/
def bodyNoPrintQuality : ProcessBody := ⟨some 45, none, some false, some false, some 12, ⟨none, none⟩⟩

/-! ### Claim theorems -/

/-- C2: after the interval governor processes a server-hinted value `v`
under a caller-supplied minimum override `m`, the session's sleep interval
equals `max m (clamp v 20 1800)`; in particular `v=5, m=0` yields 20,
`v=5000, m=0` yields 1800, `v=10, m=120` yields 120, and the result is
never below the 20-second system floor. -/
theorem interval_governance (m v : Int) (s : SessionState) :
    (sanityCheckAndSetProcessingInterval m v s).sleepIntervalSec = max m (min 1800 (max 20 v)) ∧
    20 ≤ (sanityCheckAndSetProcessingInterval m v s).sleepIntervalSec ∧
    (sanityCheckAndSetProcessingInterval 0 5 s).sleepIntervalSec = 20 ∧
    (sanityCheckAndSetProcessingInterval 0 5000 s).sleepIntervalSec = 1800 ∧
    (sanityCheckAndSetProcessingInterval 120 10 s).sleepIntervalSec = 120 := by
  unfold sanityCheckAndSetProcessingInterval
  refine ⟨by norm_num, ?_, by norm_num, by norm_num, by norm_num⟩
  simp only
  omega

/-- C8: a second `start` on the same session — whether the first-started
session is still running or has been stopped — fails with the
already-started error and leaves the session state entirely unchanged
(so the worker launched by the first call is unaffected). -/
theorem start_second_time_fails (s : SessionState) :
    start ((start s).2) = (.error alreadyStartedMsg, (start s).2) ∧
    start (stop ((start s).2)) = (.error alreadyStartedMsg, stop ((start s).2)) := by
  by_cases h : s.hasRan <;> by_cases h2 : s.hasThread <;> simp [start, stop, h, h2]

/-- C9: for every error event reaching the error reporter, the session state
is untouched; exactly the one event is recorded and nothing the reporter
does afterwards (handler return, or a caught handler exception that is only
logged) adds another error event; and with no handler supplied the event is
dropped after being recorded, with no further action. -/
theorem error_reporter_safe (onError : ErrorHandler) (t d : String) (e : Eff) :
    (fireOnError onError t d e).state = e.state ∧
    (∃ ext, (fireOnError onError t d e).trace = e.trace ++ Action.reportError t d :: ext ∧
      ext.countP isReport = 0) ∧
    (fireOnError none t d e).trace = e.trace ++ [Action.reportError t d] := by
  refine ⟨fireOnError_state onError t d e,
    ⟨handlerExtra onError t d, fireOnError_trace_eq onError t d e, handlerExtra_no_report onError t d⟩,
    ?_⟩
  simp [fireOnError, emit]

/-- C1 counterexample: on the spec scenario's successful submission
(`Score:12, PrintQuality:7, WarningSuggested:false, PauseSuggested:false`)
the state-update callback is invoked with first positional argument 7 (the
print quality) and fourth argument 12 (the raw score) — not with the raw
score 12 as its first argument, as the claim states; since 7 ≠ 12 the two
argument orders are observably different. -/
theorem state_callback_order_cex :
    (processImage 0 none goodStateUpdateCb (.resp 200 (some bodyFullVerdict) "") ⟨sProvisioned, []⟩).trace
      = [Action.submitRequest (some "https://a/p"), Action.fireStateUpdate 7 false false 12] ∧
    (7 : Int) ≠ 12 :=
  ⟨rfl, by decide⟩

/-- C1 amended: for every successful image submission (HTTP 200 with all
required verdict fields present), the state-update callback is invoked with
positional arguments `(printQuality, warningSuggested, pauseSuggested,
score)` — the normalized print quality first and the raw score fourth. -/
theorem state_callback_arg_order (minI : Int) (onError : ErrorHandler) (cb : StateUpdateCb)
    (s : SessionState) (tr : List Action) (v pq sc : Int) (w p : Bool)
    (errf : ApiErrorFields) (text : String) :
    Action.fireStateUpdate pq w p sc ∈
      (processImage minI onError cb
        (.resp 200 (some ⟨some v, some pq, some w, some p, some sc, errf⟩) text) ⟨s, tr⟩).trace := by
  unfold processImage
  simp only [emit]
  cases hc : cb pq w p sc with
  | ret _ => simp [hc]
  | raise m => simp [hc, fireOnError_trace_eq]

/-- C5 counterexample: for the 200 submission response
`{NextProcessIntervalSec:45, Score:12, WarningSuggested:false,
PauseSuggested:false}` with `PrintQuality` omitted, verdict parsing fails:
an internal error about the missing `PrintQuality` field is reported and
the state-update callback never fires, contradicting the claim that the
field is optional. -/
theorem print_quality_required_cex :
    (processImage 0 none goodStateUpdateCb (.resp 200 (some bodyNoPrintQuality) "") ⟨sProvisioned, []⟩).trace
      = [Action.submitRequest (some "https://a/p"),
         Action.reportError ErrorTypeInternal "Failed to get a valid PrintQuality from process API response."] ∧
    (processImage 0 none goodStateUpdateCb (.resp 200 (some bodyNoPrintQuality) "") ⟨sProvisioned, []⟩).trace.countP isStateUpdate = 0 :=
  ⟨rfl, by decide⟩

/-- C5 amended: the normalized print-quality field is required: for every
200 submission response that contains `NextProcessIntervalSec` and `Score`
but omits `PrintQuality`, verdict parsing fails — an internal error naming
the missing `PrintQuality` field is reported, the state-update callback
does not fire, and the fallback switch is triggered. -/
theorem print_quality_required (minI : Int) (onError : ErrorHandler) (cb : StateUpdateCb)
    (s : SessionState) (v sc : Int) (w p : Option Bool)
    (errf : ApiErrorFields) (text : String) :
    ((processImage minI onError cb
        (.resp 200 (some ⟨some v, none, w, p, some sc, errf⟩) text) ⟨s, []⟩).trace.countP isStateUpdate = 0) ∧
    Action.reportError ErrorTypeInternal "Failed to get a valid PrintQuality from process API response." ∈
      (processImage minI onError cb
        (.resp 200 (some ⟨some v, none, w, p, some sc, errf⟩) text) ⟨s, []⟩).trace ∧
    (processImage minI onError cb
        (.resp 200 (some ⟨some v, none, w, p, some sc, errf⟩) text) ⟨s, []⟩).state.useFallbackUrl = true := by
  unfold processImage
  simp only [emit]
  refine ⟨?_, ?_, ?_⟩
  · simp [processImageFail_trace_eq, List.countP_append, List.countP_cons, isStateUpdate,
      handlerExtra_no_stateUpdate]
  · simp [processImageFail_trace_eq]
  · simp [processImageFail_state]

/-- C6 counterexample: a 200 `createcontext` response in which all three
required fields are present but empty strings is accepted by the code as a
success — `ensureSessionContext` returns `true`, stores the empty strings,
and reports no error — contradicting the claim that an empty-string field
is treated as a failure reported as an internal error. -/
theorem context_empty_fields_cex :
    ensureSessionContext none (.resp 200 (some ctxBodyEmptyStrings) "") ⟨sUnprovisioned, []⟩
      = (true, ⟨⟨some "", some "", some "", false, 60, true, true, false, true⟩, [Action.contextRequest]⟩) :=
  rfl

/-- C6 amended: context provisioning succeeds if and only if the session
already has a context, or the transport returns status 200 with a
parseable body in which all three required fields (context id, primary
processing URL, fallback processing URL) are present (non-null); presence
is the only check, so empty strings are accepted as valid values. -/
theorem context_provisioning_success_iff (onError : ErrorHandler)
    (http : HttpResult ContextBody) (s : SessionState) (tr : List Action) :
    (ensureSessionContext onError http ⟨s, tr⟩).1
      = (s.contextId.isSome || contextRespOk http) := by
  unfold ensureSessionContext
  by_cases hc : s.contextId.isSome
  · simp [hc]
  · cases http with
    | exn m => simp [hc, contextRespOk]
    | resp status body text =>
      by_cases hs : status = 200
      · subst hs
        cases body with
        | none => simp [hc, contextRespOk]
        | some b =>
          obtain ⟨cid, purl, furl, berr⟩ := b
          cases cid <;> cases purl <;> cases furl <;> simp [hc, contextRespOk]
      · rcases htp : tryParseApiErrorResponse (body.map (·.err)) with - | ⟨t, d⟩ <;>
          simp [hc, hs, htp, contextRespOk, Ne.symm hs]

/-- C10: error handling in the submission pipeline is not atomic with
respect to the interval: for a 200 submission response containing
`NextProcessIntervalSec` but missing `Score`, `PrintQuality`,
`WarningSuggested`, or `PauseSuggested`, the session's sleep interval is
still updated to the governed hinted value before the missing field is
detected, while the tick ends with a reported internal error, the fallback
switch set, and no state-update callback. -/
theorem interval_update_not_atomic (minI : Int) (onError : ErrorHandler) (cb : StateUpdateCb)
    (s : SessionState) (v : Int) (sc pq : Option Int) (w p : Option Bool)
    (errf : ApiErrorFields) (text : String)
    (hmiss : sc = none ∨ pq = none ∨ w = none ∨ p = none) :
    (processImage minI onError cb
        (.resp 200 (some ⟨some v, pq, w, p, sc, errf⟩) text) ⟨s, []⟩).state.sleepIntervalSec
      = max minI (min 1800 (max 20 v)) ∧
    ((processImage minI onError cb
        (.resp 200 (some ⟨some v, pq, w, p, sc, errf⟩) text) ⟨s, []⟩).trace.countP isStateUpdate = 0) ∧
    (∃ m, Action.reportError ErrorTypeInternal m ∈
      (processImage minI onError cb
        (.resp 200 (some ⟨some v, pq, w, p, sc, errf⟩) text) ⟨s, []⟩).trace) ∧
    (processImage minI onError cb
        (.resp 200 (some ⟨some v, pq, w, p, sc, errf⟩) text) ⟨s, []⟩).state.useFallbackUrl = true := by
  unfold processImage
  simp only [emit]
  cases sc with
  | none =>
    refine ⟨?_, ?_,
      ⟨"Failed to get a valid Score from process API response.",
        by simp [processImageFail_trace_eq]⟩, ?_⟩
    · simp [processImageFail_state, sanityCheckAndSetProcessingInterval]
    · simp [processImageFail_trace_eq, List.countP_append, List.countP_cons, isStateUpdate,
        handlerExtra_no_stateUpdate]
    · simp [processImageFail_state]
  | some sc0 =>
    cases pq with
    | none =>
      refine ⟨?_, ?_,
        ⟨"Failed to get a valid PrintQuality from process API response.",
          by simp [processImageFail_trace_eq]⟩, ?_⟩
      · simp [processImageFail_state, sanityCheckAndSetProcessingInterval]
      · simp [processImageFail_trace_eq, List.countP_append, List.countP_cons, isStateUpdate,
          handlerExtra_no_stateUpdate]
      · simp [processImageFail_state]
    | some pq0 =>
      cases w with
      | none =>
        refine ⟨?_, ?_,
          ⟨"Failed to get a valid WarningSuggested from process API response.",
            by simp [processImageFail_trace_eq]⟩, ?_⟩
        · simp [processImageFail_state, sanityCheckAndSetProcessingInterval]
        · simp [processImageFail_trace_eq, List.countP_append, List.countP_cons, isStateUpdate,
            handlerExtra_no_stateUpdate]
        · simp [processImageFail_state]
      | some w0 =>
        cases p with
        | none =>
          refine ⟨?_, ?_,
            ⟨"Failed to get a valid PauseSuggested from process API response.",
              by simp [processImageFail_trace_eq]⟩, ?_⟩
          · simp [processImageFail_state, sanityCheckAndSetProcessingInterval]
          · simp [processImageFail_trace_eq, List.countP_append, List.countP_cons, isStateUpdate,
              handlerExtra_no_stateUpdate]
          · simp [processImageFail_state]
        | some p0 => rcases hmiss with h | h | h | h <;> simp at h

theorem emit_trace_getLast (a : Action) (e : Eff) : (emit a e).trace.getLast? = some a := by
  simp [emit]

theorem processImage_effects (minI : Int) (oe : ErrorHandler) (cb : StateUpdateCb)
    (http : HttpResult ProcessBody) (e : Eff) :
    (processImage minI oe cb http e).state.useFallbackUrl
      = (e.state.useFallbackUrl || !submissionOk http) ∧
    ∃ ext, (processImage minI oe cb http e).trace
        = e.trace ++ Action.submitRequest (if !e.state.useFallbackUrl then e.state.processRequestUrl
            else e.state.processRequestFallbackUrl) :: ext ∧
      ext.countP isSubmit = 0 := by
  unfold processImage
  simp only [emit]
  cases http with
  | exn m =>
    exact ⟨by simp [processImageFail_state, submissionOk],
      Action.reportError ErrorTypeInternal m :: handlerExtra oe ErrorTypeInternal m,
      by simp [processImageFail_trace_eq, emit],
      by simp [List.countP_cons, isSubmit, handlerExtra_no_submit]⟩
  | resp status body text =>
    by_cases hs : status = 200
    · subst hs
      cases body with
      | none =>
        exact ⟨by simp [processImageFail_state, submissionOk],
          Action.reportError ErrorTypeInternal jsonDecodeFailureMsg ::
            handlerExtra oe ErrorTypeInternal jsonDecodeFailureMsg,
          by simp [processImageFail_trace_eq, emit],
          by simp [List.countP_cons, isSubmit, handlerExtra_no_submit]⟩
      | some b =>
        obtain ⟨nv, pq, w, p, sc, berr⟩ := b
        cases nv with
        | none =>
          exact ⟨by simp [processImageFail_state, submissionOk],
            Action.reportError ErrorTypeInternal
                "Failed to get a valid NextProcessIntervalSec from process API response." ::
              handlerExtra oe ErrorTypeInternal
                "Failed to get a valid NextProcessIntervalSec from process API response.",
            by simp [processImageFail_trace_eq, emit],
            by simp [List.countP_cons, isSubmit, handlerExtra_no_submit]⟩
        | some v =>
          cases sc with
          | none =>
            exact ⟨by simp [processImageFail_state, submissionOk, sanityCheckAndSetProcessingInterval],
              Action.reportError ErrorTypeInternal
                  "Failed to get a valid Score from process API response." ::
                handlerExtra oe ErrorTypeInternal
                  "Failed to get a valid Score from process API response.",
              by simp [processImageFail_trace_eq, emit, sanityCheckAndSetProcessingInterval],
              by simp [List.countP_cons, isSubmit, handlerExtra_no_submit]⟩
          | some sc0 =>
            cases pq with
            | none =>
              exact ⟨by simp [processImageFail_state, submissionOk, sanityCheckAndSetProcessingInterval],
                Action.reportError ErrorTypeInternal
                    "Failed to get a valid PrintQuality from process API response." ::
                  handlerExtra oe ErrorTypeInternal
                    "Failed to get a valid PrintQuality from process API response.",
                by simp [processImageFail_trace_eq, emit, sanityCheckAndSetProcessingInterval],
                by simp [List.countP_cons, isSubmit, handlerExtra_no_submit]⟩
            | some pq0 =>
              cases w with
              | none =>
                exact ⟨by simp [processImageFail_state, submissionOk, sanityCheckAndSetProcessingInterval],
                  Action.reportError ErrorTypeInternal
                      "Failed to get a valid WarningSuggested from process API response." ::
                    handlerExtra oe ErrorTypeInternal
                      "Failed to get a valid WarningSuggested from process API response.",
                  by simp [processImageFail_trace_eq, emit, sanityCheckAndSetProcessingInterval],
                  by simp [List.countP_cons, isSubmit, handlerExtra_no_submit]⟩
              | some w0 =>
                cases p with
                | none =>
                  exact ⟨by simp [processImageFail_state, submissionOk, sanityCheckAndSetProcessingInterval],
                    Action.reportError ErrorTypeInternal
                        "Failed to get a valid PauseSuggested from process API response." ::
                      handlerExtra oe ErrorTypeInternal
                        "Failed to get a valid PauseSuggested from process API response.",
                    by simp [processImageFail_trace_eq, emit, sanityCheckAndSetProcessingInterval],
                    by simp [List.countP_cons, isSubmit, handlerExtra_no_submit]⟩
                | some p0 =>
                  cases hc : cb pq0 w0 p0 sc0 with
                  | ret a =>
                    exact ⟨by simp [hc, submissionOk, sanityCheckAndSetProcessingInterval],
                      [Action.fireStateUpdate pq0 w0 p0 sc0],
                      by simp [hc],
                      by simp [List.countP_cons, isSubmit]⟩
                  | raise m =>
                    exact ⟨by simp [hc, fireOnError_state, submissionOk, sanityCheckAndSetProcessingInterval],
                      Action.fireStateUpdate pq0 w0 p0 sc0 ::
                        Action.reportError ErrorTypeCallbackFailure m ::
                          handlerExtra oe ErrorTypeCallbackFailure m,
                      by simp [hc, fireOnError_trace_eq, emit],
                      by simp [List.countP_cons, isSubmit, handlerExtra_no_submit]⟩
    · rcases htp : tryParseApiErrorResponse (body.map (·.err)) with - | ⟨t, d⟩
      · exact ⟨by simp [hs, htp, processImageFail_state, submissionOk],
          Action.reportError ErrorTypeInternal
              ("Failed to call Process API. Status: " ++ toString status ++ ", Body: " ++ text) ::
            handlerExtra oe ErrorTypeInternal
              ("Failed to call Process API. Status: " ++ toString status ++ ", Body: " ++ text),
          by simp [hs, htp, processImageFail_trace_eq, emit],
          by simp [List.countP_cons, isSubmit, handlerExtra_no_submit]⟩
      · exact ⟨by simp [hs, htp, fireOnError_state, submissionOk],
          Action.reportError t d :: handlerExtra oe t d,
          by simp [hs, htp, fireOnError_trace_eq, emit],
          by simp [List.countP_cons, isSubmit, handlerExtra_no_submit]⟩

theorem ensure_noop (oe : ErrorHandler) (http : HttpResult ContextBody) (e : Eff)
    (h : e.state.contextId.isSome) : ensureSessionContext oe http e = (true, e) := by
  unfold ensureSessionContext
  simp [h]

theorem ensure_preserves (oe : ErrorHandler) (http : HttpResult ContextBody) (e : Eff) :
    (ensureSessionContext oe http e).2.state.useFallbackUrl = e.state.useFallbackUrl ∧
    (ensureSessionContext oe http e).2.state.sleepIntervalSec = e.state.sleepIntervalSec := by
  unfold ensureSessionContext
  by_cases hc : e.state.contextId.isSome
  · simp [hc]
  · cases http with
    | exn m => simp [hc, emit, fireOnError_state]
    | resp status body text =>
      by_cases hs : status = 200
      · subst hs
        cases body with
        | none => simp [hc, emit, fireOnError_state]
        | some b =>
          by_cases h1 : b.contextId.isNone <;> by_cases h2 : b.processRequestUrl.isNone <;>
            by_cases h3 : b.fallbackProcessRequestUrl.isNone <;>
              simp [hc, h1, h2, h3, emit, fireOnError_state]
      · rcases htp : tryParseApiErrorResponse (body.map (·.err)) with - | ⟨t, d⟩ <;>
          simp [hc, hs, htp, emit, fireOnError_state]

theorem countP_zero_not_mem {α : Type} {p : α → Bool} {l : List α}
    (h : l.countP p = 0) {a : α} (ha : p a = true) : a ∉ l :=
  fun hmem => (List.countP_eq_zero.mp h a hmem) ha

/-- C3: the fallback switch is one-way and effective: if the fallback flag
is set at the start of a tick it is still set after the tick; while it is
set, every submission request the tick issues goes to the session's
fallback URL; and after any image submission the flag equals "it was
already set, or this submission was not a fully successful one" — so any
transport failure, parsed API error, or malformed success sets it, and
nothing ever clears it (a failing submission to the fallback URL just
leaves it set). -/
theorem fallback_one_way (minI : Int) (inp : TickInput) (s : SessionState) :
    (s.useFallbackUrl = true → (tick minI inp s).state.useFallbackUrl = true) ∧
    (s.useFallbackUrl = true → s.contextId.isSome → ∀ u,
      Action.submitRequest u ∈ (tick minI inp s).trace → u = s.processRequestFallbackUrl) ∧
    (∀ e : Eff, (processImage minI inp.onError inp.stateUpdate inp.submitHttp e).state.useFallbackUrl
      = (e.state.useFallbackUrl || !submissionOk inp.submitHttp)) := by
  refine ⟨?_, ?_, fun e => (processImage_effects minI inp.onError inp.stateUpdate inp.submitHttp e).1⟩
  · intro hfb
    unfold tick
    by_cases hp : s.isPaused
    · simp [hp, emit, hfb]
    · rcases hE : ensureSessionContext inp.onError inp.contextHttp ⟨s, []⟩ with ⟨b, e1⟩
      have hpres := ensure_preserves inp.onError inp.contextHttp ⟨s, []⟩
      rw [hE] at hpres
      simp only at hpres
      cases b with
      | false => simp [hp, hE, emit, hpres.1, hfb]
      | true =>
        cases hsup : inp.imageSupplier with
        | ret img =>
          cases img with
          | none => simp [hp, hE, hsup, emit, hpres.1, hfb]
          | some i =>
            have heff := (processImage_effects minI inp.onError inp.stateUpdate inp.submitHttp e1).1
            simp [hp, hE, hsup, emit, heff, hpres.1, hfb]
        | raise m => simp [hp, hE, hsup, emit, fireOnError_state, hpres.1, hfb]
  · intro hfb hcs u hu
    have hE : ensureSessionContext inp.onError inp.contextHttp ⟨s, []⟩ = (true, ⟨s, []⟩) :=
      ensure_noop inp.onError inp.contextHttp ⟨s, []⟩ hcs
    unfold tick at hu
    by_cases hp : s.isPaused
    · simp [hp, emit] at hu
    · rw [if_neg hp, hE] at hu
      cases hsup : inp.imageSupplier with
      | ret img =>
        cases img with
        | none =>
          rw [hsup] at hu
          simp [emit] at hu
        | some i =>
          rw [hsup] at hu
          obtain ⟨ext, htr, hext⟩ :=
            (processImage_effects minI inp.onError inp.stateUpdate inp.submitHttp ⟨s, []⟩).2
          simp only [emit] at hu
          rw [htr] at hu
          rcases List.mem_append.mp hu with h1 | h1
          · rw [List.nil_append] at h1
            rcases List.mem_cons.mp h1 with h2 | h2
            · rw [hfb] at h2
              simpa using h2
            · exact absurd h2 (countP_zero_not_mem hext (by simp [isSubmit]))
          · simp at h1
      | raise m =>
        rw [hsup] at hu
        simp only [emit] at hu
        rw [fireOnError_trace_eq] at hu
        rcases List.mem_append.mp hu with h1 | h1
        · rcases List.mem_append.mp h1 with h0 | h0
          · simp at h0
          · rcases List.mem_cons.mp h0 with h2 | h2
            · exact absurd h2 (by simp)
            · exact absurd h2 (countP_zero_not_mem
                (handlerExtra_no_submit inp.onError ErrorTypeCallbackFailure m) (by simp [isSubmit]))
        · simp at h1

/-- C4: no exception escapes the worker loop boundary: for every
combination of transport outcomes and callback behaviours, the tick is a
total function whose trace ends in a sleep (the loop proceeds to its next
iteration), and each raising input is converted into a reported error
event — a context transport failure and a submission transport failure
into internal errors, a raising image supplier into a callback failure. -/
theorem worker_tick_never_escapes (minI : Int) (inp : TickInput) (s : SessionState) :
    (∃ n, (tick minI inp s).trace.getLast? = some (.sleep n)) ∧
    (∀ m, s.isPaused = false → s.contextId = none → inp.contextHttp = .exn m →
        Action.reportError ErrorTypeInternal m ∈ (tick minI inp s).trace) ∧
    (∀ m, s.isPaused = false → s.contextId.isSome → inp.imageSupplier = .raise m →
        Action.reportError ErrorTypeCallbackFailure m ∈ (tick minI inp s).trace) ∧
    (∀ m img, s.isPaused = false → s.contextId.isSome → inp.imageSupplier = .ret (some img) →
        inp.submitHttp = .exn m →
        Action.reportError ErrorTypeInternal m ∈ (tick minI inp s).trace) := by
  refine ⟨?_, ?_, ?_, ?_⟩
  · unfold tick
    by_cases hp : s.isPaused
    · rw [if_pos hp]
      exact ⟨_, emit_trace_getLast _ _⟩
    · rw [if_neg hp]
      rcases hE : ensureSessionContext inp.onError inp.contextHttp ⟨s, []⟩ with ⟨b, e1⟩
      cases b
      · exact ⟨30, emit_trace_getLast _ _⟩
      · exact ⟨_, emit_trace_getLast _ _⟩
  · intro m hp hc hhttp
    simp [tick, hp, ensureSessionContext, hc, hhttp, emit, fireOnError_trace_eq]
  · intro m hp hcs hsup
    have hE := ensure_noop inp.onError inp.contextHttp ⟨s, []⟩ hcs
    simp [tick, hp, hE, hsup, emit, fireOnError_trace_eq]
  · intro m img hp hcs hsup hhttp
    have hE := ensure_noop inp.onError inp.contextHttp ⟨s, []⟩ hcs
    simp [tick, hp, hE, hsup, hhttp, emit, processImage, processImageFail, fireOnError_trace_eq]

/-- C7: on a tick whose image supplier returns no image (with a provisioned
context and not paused), the tick's whole trace is a single sleep — no
submission request, no state-update callback, no error event of any kind;
when the supplier instead raises, a callback-failure error event is
reported and still no submission request is sent. -/
theorem empty_image_skips_tick (minI : Int) (inp : TickInput) (s : SessionState)
    (hp : s.isPaused = false) (hcs : s.contextId.isSome) :
    (inp.imageSupplier = .ret none →
      (tick minI inp s).trace = [.sleep s.sleepIntervalSec] ∧
      (tick minI inp s).trace.countP isReport = 0 ∧
      (tick minI inp s).trace.countP isSubmit = 0 ∧
      (tick minI inp s).trace.countP isStateUpdate = 0) ∧
    (∀ m, inp.imageSupplier = .raise m →
      Action.reportError ErrorTypeCallbackFailure m ∈ (tick minI inp s).trace ∧
      (tick minI inp s).trace.countP isSubmit = 0) := by
  have hE := ensure_noop inp.onError inp.contextHttp ⟨s, []⟩ hcs
  constructor
  · intro hsup
    refine ⟨?_, ?_, ?_, ?_⟩ <;>
      simp [tick, hp, hE, hsup, emit, List.countP_cons, isReport, isSubmit, isStateUpdate]
  · intro m hsup
    constructor
    · simp [tick, hp, hE, hsup, emit, fireOnError_trace_eq]
    · simp [tick, hp, hE, hsup, emit, fireOnError_trace_eq, fireOnError_state,
        List.countP_append, List.countP_cons, isSubmit, handlerExtra_no_submit]

/-- The provisioned session with the fallback flag already set. -/
def sProvisionedFb : SessionState :=
  ⟨some "c1", some "https://a/p", some "https://a/f", true, 60, true, true, false, true⟩

/-- Tick inputs: context call would fail, supplier returns an image,
submission succeeds with the full verdict, no error handler. -/
def inpHappy : TickInput :=
  ⟨.exn "ctx down", .ret (some "jpeg"), .resp 200 (some bodyFullVerdict) "", goodStateUpdateCb, none⟩

/-- Tick inputs: context call fails, supplier raises, submission would
fail, no error handler. -/
def inpAllFail : TickInput :=
  ⟨.exn "ctx down", .raise "supplier broke", .exn "net down", goodStateUpdateCb, none⟩

/-- Tick inputs: supplier returns an image but the submission transport
fails. -/
def inpSubmitFail : TickInput :=
  ⟨.exn "ctx down", .ret (some "jpeg"), .exn "net down", goodStateUpdateCb, none⟩

/-- Tick inputs: supplier returns no image. -/
def inpNoImage : TickInput :=
  ⟨.exn "ctx down", .ret none, .exn "net down", goodStateUpdateCb, none⟩

/-- C3 witness: on a concrete tick run with the fallback flag already set,
the flag is still set afterwards and the one submission request of the
tick went to the fallback URL. -/
theorem fallback_one_way_witness :
    (tick 0 inpHappy sProvisionedFb).state.useFallbackUrl = true ∧
    (some "https://a/f" : Option String) = sProvisionedFb.processRequestFallbackUrl := by
  have h := fallback_one_way 0 inpHappy sProvisionedFb
  exact ⟨h.1 rfl, h.2.1 rfl (by decide) (some "https://a/f") (by decide)⟩

/-- C4 witness: concrete failing ticks still report the corresponding
error events (context transport failure, raising supplier, submission
transport failure). -/
theorem worker_tick_never_escapes_witness :
    Action.reportError ErrorTypeInternal "ctx down" ∈ (tick 0 inpAllFail sUnprovisioned).trace ∧
    Action.reportError ErrorTypeCallbackFailure "supplier broke" ∈ (tick 0 inpAllFail sProvisioned).trace ∧
    Action.reportError ErrorTypeInternal "net down" ∈ (tick 0 inpSubmitFail sProvisioned).trace := by
  have h1 := worker_tick_never_escapes 0 inpAllFail sUnprovisioned
  have h2 := worker_tick_never_escapes 0 inpAllFail sProvisioned
  have h3 := worker_tick_never_escapes 0 inpSubmitFail sProvisioned
  exact ⟨h1.2.1 "ctx down" rfl rfl rfl,
    h2.2.2.1 "supplier broke" rfl (by decide) rfl,
    h3.2.2.2 "net down" "jpeg" rfl (by decide) rfl rfl⟩

/-- C7 witness: a concrete tick whose supplier returns no image performs
only its sleep, and a concrete tick whose supplier raises reports a
callback failure while sending no submission request. -/
theorem empty_image_skips_tick_witness :
    (tick 0 inpNoImage sProvisioned).trace = [.sleep 60] ∧
    Action.reportError ErrorTypeCallbackFailure "supplier broke" ∈ (tick 0 inpAllFail sProvisioned).trace ∧
    (tick 0 inpAllFail sProvisioned).trace.countP isSubmit = 0 := by
  have h1 := empty_image_skips_tick 0 inpNoImage sProvisioned rfl (by decide)
  have h2 := empty_image_skips_tick 0 inpAllFail sProvisioned rfl (by decide)
  exact ⟨(h1.1 rfl).1, (h2.2 "supplier broke" rfl).1, (h2.2 "supplier broke" rfl).2⟩

/-- C10 witness: for the concrete 200 response with a 45-second interval
hint and a missing `Score`, the interval is updated to 45 while the state
callback is skipped and the fallback flag set. -/
theorem interval_update_not_atomic_witness :
    (processImage 0 none goodStateUpdateCb
        (.resp 200 (some ⟨some 45, some 7, some false, some false, none, ⟨none, none⟩⟩) "")
        ⟨sProvisioned, []⟩).state.sleepIntervalSec = 45 ∧
    ((processImage 0 none goodStateUpdateCb
        (.resp 200 (some ⟨some 45, some 7, some false, some false, none, ⟨none, none⟩⟩) "")
        ⟨sProvisioned, []⟩).trace.countP isStateUpdate = 0) ∧
    (processImage 0 none goodStateUpdateCb
        (.resp 200 (some ⟨some 45, some 7, some false, some false, none, ⟨none, none⟩⟩) "")
        ⟨sProvisioned, []⟩).state.useFallbackUrl = true := by
  have h := interval_update_not_atomic 0 none goodStateUpdateCb sProvisioned 45
    none (some 7) (some false) (some false) ⟨none, none⟩ "" (Or.inl rfl)
  exact ⟨h.1.trans (by norm_num), h.2.1, h.2.2.2⟩

end GadgetSdk
